import Mathlib

/-!
Verification of the teslajsonpy device layer (vehicle.py, battery_sensor.py,
sentry.py) against its natural-language specification.

The Python classes are shallowly embedded as Lean structures and pure state
transformers.  Python `None` for a whole facet becomes `Option` at the facet
level; a field whose value may itself be `None` (such as `shift_state`) is an
`Option` inside the record.  Python machine timestamps (`time.time()` floats
compared with `>=`) are modelled as integers; only their ordering matters to
the code.  A Python expression that would raise (subscripting `None`) is
modelled with `Except Unit`, where `Except.error ()` marks the raised
exception.
-/

namespace Teslajsonpy

/-- Charging-parameters facet (`get_charging_params`): the fields the device
layer reads. `some` models a present (truthy, non-empty) dict; `none` models
an absent facet. -/
structure ChargingParams where
  battery_level : Int
  usable_battery_level : Int
  charging_state : String
  battery_range : Int
  est_battery_range : Int
  ideal_battery_range : Int
deriving DecidableEq, Repr

/-- Drive-parameters facet (`get_drive_params`).  The `shift_state` value may
itself be Python `None`, modelled as `Option.none`. -/
structure DriveParams where
  shift_state : Option String
deriving DecidableEq, Repr

/-- GUI-settings facet (`get_gui_params`). -/
structure GuiParams where
  gui_distance_units : String
  gui_range_display : String
deriving DecidableEq, Repr

/-- State-parameters facet (`get_state_params`): the field the sentry switch
reads. -/
structure StateParams where
  sentry_mode : Bool
deriving DecidableEq, Repr

/-- Command response record: `data["response"]["result"]` of
`Controller.command`; the whole record may be absent on transport failure. -/
structure CommandResponse where
  result : Bool
deriving DecidableEq, Repr

/-- The Controller collaborator, as the device layer reads it during one
refresh: keyed maps (Python dicts indexed by vehicle key) and per-vehicle
facet lookups.  `car_online`, `last_update_time` and `last_wake_up_time` are
total maps from the lookup key. -/
structure Controller where
  car_online : String → Bool
  last_update_time : String → Int
  last_wake_up_time : String → Int
  update_interval : Int
  charging_params : String → Option ChargingParams
  drive_params : String → Option DriveParams
  gui_params : String → Option GuiParams
  state_params : String → Option StateParams

/-- Identity attributes of a `VehicleDevice` used by the refresh logic:
`self._id` and `self._vin`. -/
structure VehicleBase where
  id : String
  vin : String
deriving DecidableEq, Repr

/-- Python truthiness of an optional string: `not x` is true for `None` and
for the empty string. -/
def strFalsy : Option String → Bool
  | none => true
  | some s => s.isEmpty

/-- Python truthiness of an optional bool: `None` is falsy. -/
def pyTruthy : Option Bool → Bool
  | none => false
  | some b => b

/-- The guard `charging_data and charging_data["charging_state"] == "Charging"`
of `StatusSensor.async_update` (vehicle.py line 139). -/
def chargingIsCharging : Option ChargingParams → Bool
  | none => false
  | some c => c.charging_state == "Charging"

/-- The guard `driving_data and driving_data["shift_state"] in ["D", "R", "N"]`
of `StatusSensor.async_update` (vehicle.py line 141).  When `shift_state` is
Python `None`, membership in the list is false. -/
def shiftInDRN : Option DriveParams → Bool
  | none => false
  | some d =>
    match d.shift_state with
    | none => false
    | some s => s == "D" || s == "R" || s == "N"

/-- `StatusSensor.async_update` (vehicle.py lines 130-146), restricted to the
status derivation: reads the charging facet and the drive facet at `self._id`
and the online map at `self._vin`, and produces the new `__status`.  The
fourth branch subscripts `driving_data["shift_state"]` without a presence
check, so with `driving_data` absent the Python code raises `TypeError`;
that raise is `Except.error ()`. -/
def StatusSensor.async_update (c : Controller) (b : VehicleBase) :
    Except Unit String :=
  let charging_data := c.charging_params b.id
  let driving_data := c.drive_params b.id
  if !(c.car_online b.vin) then Except.ok "Sleeping"
  else if chargingIsCharging charging_data then Except.ok "Charging"
  else if shiftInDRN driving_data then Except.ok "Driving"
  else
    match driving_data with
    | none => Except.error ()
    | some d =>
      if strFalsy d.shift_state || d.shift_state == some "P" then
        Except.ok "Parked"
      else Except.ok "Unknown"

/-- `VehicleDevice.assumed_state` (vehicle.py lines 82-89): a pure read-only
query — it takes the controller and the device identity and returns a `Bool`,
mutating nothing.  The elapsed quantity the code compares against
`update_interval` is `_last_update_time[id] - _last_wake_up_time[id]`. -/
def VehicleDevice.assumed_state (c : Controller) (b : VehicleBase) : Bool :=
  !(c.car_online b.id) &&
    (c.last_update_time b.id - c.last_wake_up_time b.id > c.update_interval)

/-- Private fields of `Battery` written by its refresh (battery_sensor.py
lines 26-28).  `__charging_state` starts as Python `None`, hence `Option`. -/
structure BatteryState where
  battery_level : Int
  usable_battery_level : Int
  charging_state : Option Bool
deriving DecidableEq, Repr

/-- `Battery.async_update` (battery_sensor.py lines 38-45): reads the charging
facet at `self._id`; if present overwrites the three fields, otherwise leaves
the state untouched. -/
def Battery.async_update (c : Controller) (b : VehicleBase)
    (s : BatteryState) : BatteryState :=
  match c.charging_params b.id with
  | none => s
  | some d =>
    { battery_level := d.battery_level
      usable_battery_level := d.usable_battery_level
      charging_state := some (d.charging_state == "Charging") }

/-- `Battery.get_value` (battery_sensor.py lines 52-54). -/
def Battery.get_value (s : BatteryState) : Int :=
  s.battery_level

/-- `Battery.get_usable_value` (battery_sensor.py lines 56-58). -/
def Battery.get_usable_value (s : BatteryState) : Int :=
  s.usable_battery_level

/-- Private fields of `Range` written by its refresh (battery_sensor.py
lines 94-99). -/
structure RangeState where
  battery_range : Int
  est_battery_range : Int
  ideal_battery_range : Int
  rated : Bool
  measurement : String
deriving DecidableEq, Repr

/-- `Range.async_update` (battery_sensor.py lines 106-120): two independent
facet reads; each applies its writes only when its facet is present. -/
def Range.async_update (c : Controller) (b : VehicleBase)
    (s : RangeState) : RangeState :=
  let s1 :=
    match c.charging_params b.id with
    | none => s
    | some d =>
      { s with
        battery_range := d.battery_range
        est_battery_range := d.est_battery_range
        ideal_battery_range := d.ideal_battery_range }
  match c.gui_params b.id with
  | none => s1
  | some g =>
    { s1 with
      measurement :=
        if g.gui_distance_units == "mi/hr" then "LENGTH_MILES"
        else "LENGTH_KILOMETERS"
      rated := g.gui_range_display == "Rated" }

/-- `Range.get_value` (battery_sensor.py lines 127-135): the rated range when
the rated flag is set, else the ideal range. -/
def Range.get_value (s : RangeState) : Int :=
  if s.rated then s.battery_range else s.ideal_battery_range

/-- Private fields of `SentrySwitch` (sentry.py lines 33-34).  The cached flag
`__sentry_state` can hold Python `None` (the value of `(data and
data["sentry_mode"])` when `data` is `None`), hence `Option Bool`;
it starts as `some false`. -/
structure SentryState where
  manual_update_time : Int
  sentry_state : Option Bool
deriving DecidableEq, Repr

/-- The Python expression `(data and data["sentry_mode"])` of sentry.py
line 46: `None` when the facet is absent, otherwise the facet's bool. -/
def sentryFacetValue : Option StateParams → Option Bool
  | none => none
  | some d => some d.sentry_mode

/-- `SentrySwitch.async_update` (sentry.py lines 40-46): overwrites the cached
flag from the state-parameters facet only when the controller's last update
time at `self._id` is at least `__manual_update_time`. -/
def SentrySwitch.async_update (c : Controller) (b : VehicleBase)
    (s : SentryState) : SentryState :=
  let last_update := c.last_update_time b.id
  if last_update ≥ s.manual_update_time then
    { s with sentry_state := sentryFacetValue (c.state_params b.id) }
  else s

/-- Success test `data and data["response"]["result"]` on a command response
(sentry.py lines 57 and 70): an absent response is a failure. -/
def respSuccess : Option CommandResponse → Bool
  | none => false
  | some r => r.result

/-- `SentrySwitch.enable_sentry` (sentry.py lines 48-59).  `resp` is the
awaited result of the one `set_sentry_mode {on: true}` command (issued with
`wake_if_asleep=True`); `now` is `time.time()` at the assignment.  Returns the
new state and how many remote commands the call issued. -/
def SentrySwitch.enable_sentry (resp : Option CommandResponse) (now : Int)
    (s : SentryState) : SentryState × Nat :=
  if !(pyTruthy s.sentry_state) then
    let s1 := if respSuccess resp then { s with sentry_state := some true }
              else s
    ({ s1 with manual_update_time := now }, 1)
  else (s, 0)

/-- `SentrySwitch.disable_sentry` (sentry.py lines 61-72), symmetric to
`enable_sentry` with `{on: false}` and target state `some false`. -/
def SentrySwitch.disable_sentry (resp : Option CommandResponse) (now : Int)
    (s : SentryState) : SentryState × Nat :=
  if pyTruthy s.sentry_state then
    let s1 := if respSuccess resp then { s with sentry_state := some false }
              else s
    ({ s1 with manual_update_time := now }, 1)
  else (s, 0)

/-- `SentrySwitch.get_value` (sentry.py lines 74-76). -/
def SentrySwitch.get_value (s : SentryState) : Option Bool :=
  s.sentry_state

/-! Concrete sample inputs used by witnesses and counterexamples. -/

/-- Sample device identity with distinct `id` and `vin`. -/
def bSample : VehicleBase := { id := "I", vin := "V" }

/-- Controller snapshot: vehicle online everywhere, every facet absent. -/
def ctrlOnlineEmpty : Controller :=
  { car_online := fun _ => true
    last_update_time := fun _ => 0
    last_wake_up_time := fun _ => 0
    update_interval := 0
    charging_params := fun _ => none
    drive_params := fun _ => none
    gui_params := fun _ => none
    state_params := fun _ => none }

/-- Controller snapshot: vehicle offline, every facet absent. -/
def ctrlOffline : Controller :=
  { ctrlOnlineEmpty with car_online := fun _ => false }

/-- Sample charging facet reporting an in-progress charge. -/
def chargeSample : ChargingParams :=
  { battery_level := 80
    usable_battery_level := 78
    charging_state := "Charging"
    battery_range := 220
    est_battery_range := 210
    ideal_battery_range := 200 }

/-- Controller snapshot: online, charging in progress while the shift state
is Drive. -/
def ctrlChargingWhileD : Controller :=
  { ctrlOnlineEmpty with
    charging_params := fun _ => some chargeSample
    drive_params := fun _ => some { shift_state := some "D" } }

/-- Sentry switch state: believed enabled, no manual update recorded yet. -/
def sentryOn : SentryState := { manual_update_time := 0, sentry_state := some true }

/-- Sentry switch state: believed disabled, no manual update recorded yet. -/
def sentryOff : SentryState := { manual_update_time := 0, sentry_state := some false }

/-- Sentry switch state: believed enabled, manual update recorded at time 5. -/
def sentryManual5 : SentryState := { manual_update_time := 5, sentry_state := some true }

/-- Sample battery-sensor state whose two stored levels differ. -/
def batteryDiff : BatteryState :=
  { battery_level := 80, usable_battery_level := 78, charging_state := some false }

/-- Sample range-sensor state in rated mode with rated 220 and ideal 200. -/
def rangeRated220 : RangeState :=
  { battery_range := 220
    est_battery_range := 0
    ideal_battery_range := 200
    rated := true
    measurement := "LENGTH_MILES" }

/-- The same stored figures as `rangeRated220` with rated mode off. -/
def rangeIdeal220 : RangeState := { rangeRated220 with rated := false }

/-- Sample drive facet with shift state `"P"`. -/
def drivePSample : DriveParams := { shift_state := some "P" }

/-- Controller snapshot: parked drive facet, online everywhere except at the
key `"V"` (the sample vin). -/
def ctrlParkedOnVin : Controller :=
  { ctrlOnlineEmpty with
    car_online := fun k => !(k == "V")
    drive_params := fun _ => some drivePSample }

/-- Controller snapshot: parked drive facet, online everywhere; differs from
`ctrlParkedOnVin` only in the online flag at the key `"V"`. -/
def ctrlParkedAllOn : Controller :=
  { ctrlOnlineEmpty with drive_params := fun _ => some drivePSample }

/-! Helper lemmas shared by several proofs. -/

/-- When no present charging record carries state `"Charging"`, the code's
charging guard is false. -/
theorem chargingIsCharging_eq_false {o : Option ChargingParams}
    (h : ∀ cd, o = some cd → cd.charging_state ≠ "Charging") :
    chargingIsCharging o = false := by
  cases o with
  | none => rfl
  | some cd => simpa [chargingIsCharging] using h cd rfl

/-- C1: every status refresh follows the ordered five-way precedence: offline
gives `"Sleeping"` regardless of the facets; else a present charging facet in
state `"Charging"` gives `"Charging"` even when the shift state is `"D"`; else
a present drive facet with shift state `"D"`, `"R"` or `"N"` gives
`"Driving"`; else a shift state that is absent, empty or `"P"` gives
`"Parked"`; any other shift state gives `"Unknown"`. -/
theorem status_five_way_precedence (c : Controller) (b : VehicleBase) :
    (c.car_online b.vin = false →
      StatusSensor.async_update c b = Except.ok "Sleeping") ∧
    (∀ cd, c.car_online b.vin = true → c.charging_params b.id = some cd →
      cd.charging_state = "Charging" →
      StatusSensor.async_update c b = Except.ok "Charging") ∧
    (∀ dd, c.car_online b.vin = true →
      (∀ cd, c.charging_params b.id = some cd → cd.charging_state ≠ "Charging") →
      c.drive_params b.id = some dd →
      (dd.shift_state = some "D" ∨ dd.shift_state = some "R" ∨
        dd.shift_state = some "N") →
      StatusSensor.async_update c b = Except.ok "Driving") ∧
    (∀ dd, c.car_online b.vin = true →
      (∀ cd, c.charging_params b.id = some cd → cd.charging_state ≠ "Charging") →
      c.drive_params b.id = some dd →
      (dd.shift_state = none ∨ dd.shift_state = some "" ∨
        dd.shift_state = some "P") →
      StatusSensor.async_update c b = Except.ok "Parked") ∧
    (∀ dd, c.car_online b.vin = true →
      (∀ cd, c.charging_params b.id = some cd → cd.charging_state ≠ "Charging") →
      c.drive_params b.id = some dd →
      dd.shift_state ≠ some "D" → dd.shift_state ≠ some "R" →
      dd.shift_state ≠ some "N" →
      dd.shift_state ≠ none → dd.shift_state ≠ some "" →
      dd.shift_state ≠ some "P" →
      StatusSensor.async_update c b = Except.ok "Unknown") := by
  refine ⟨?_, ?_, ?_, ?_, ?_⟩
  · intro hoff
    simp [StatusSensor.async_update, hoff]
  · intro cd hon hcp hch
    simp [StatusSensor.async_update, hon, hcp, chargingIsCharging, hch]
  · intro dd hon hnc hdp hsh
    have hcc := chargingIsCharging_eq_false hnc
    have hdrn : shiftInDRN (c.drive_params b.id) = true := by
      rcases hsh with h | h | h <;> simp [shiftInDRN, hdp, h]
    simp [StatusSensor.async_update, hon, hcc, hdrn]
  · intro dd hon hnc hdp hsh
    have hcc := chargingIsCharging_eq_false hnc
    have hdrn : shiftInDRN (c.drive_params b.id) = false := by
      rcases hsh with h | h | h <;> simp [shiftInDRN, hdp, h]
    have hpk : (strFalsy dd.shift_state || dd.shift_state == some "P") = true := by
      rcases hsh with h | h | h <;> simp [strFalsy, h, String.isEmpty_iff]
    rw [hdp] at hdrn
    simp [StatusSensor.async_update, hon, hcc, hdp, hdrn, hpk]
  · intro dd hon hnc hdp hd hr hn hnone hempty hp
    have hcc := chargingIsCharging_eq_false hnc
    have hdrn : shiftInDRN (some dd) = false := by
      cases hss : dd.shift_state with
      | none => simp [shiftInDRN, hss]
      | some s =>
        simp only [shiftInDRN, hss]
        rw [hss] at hd hr hn
        simp only [Bool.or_eq_false_iff, beq_eq_false_iff_ne]
        refine ⟨⟨fun h => hd ?_, fun h => hr ?_⟩, fun h => hn ?_⟩ <;> simp [h]
    have hpk : (strFalsy dd.shift_state || dd.shift_state == some "P") = false := by
      cases hss : dd.shift_state with
      | none => exact absurd hss hnone
      | some s =>
        rw [hss] at hempty hp
        have hs1 : s ≠ "" := fun h => hempty (by simp [h])
        have hs2 : s ≠ "P" := fun h => hp (by simp [h])
        have hie : s.isEmpty = false := by
          cases hie : s.isEmpty with
          | false => rfl
          | true => exact absurd ((String.isEmpty_iff s).mp hie) hs1
        simp [strFalsy, hss, hie, hs2]
    simp [StatusSensor.async_update, hon, hcc, hdp, hdrn, hpk]

/-- Witness for C1 at concrete inputs: an offline snapshot yields
`"Sleeping"`, and a snapshot charging while the shift state is `"D"` yields
`"Charging"`. -/
theorem status_five_way_precedence_witness :
    StatusSensor.async_update ctrlOffline bSample = Except.ok "Sleeping" ∧
    StatusSensor.async_update ctrlChargingWhileD bSample = Except.ok "Charging" := by
  constructor
  · exact (status_five_way_precedence ctrlOffline bSample).1 rfl
  · exact (status_five_way_precedence ctrlChargingWhileD bSample).2.1
      chargeSample rfl rfl rfl

/-- C2: with the vehicle online, no charging branch matched, and the drive
facet entirely absent, the status refresh reaches the fourth branch and
subscripts the absent drive record: the Python code raises `TypeError`
(modelled as `Except.error ()`) instead of yielding `"Parked"` as the
specification requires. -/
theorem status_absent_driving_raises :
    StatusSensor.async_update ctrlOnlineEmpty bSample = Except.error () := rfl

/-- C3 counterexample: the claim fails at two explicit inputs.  Sentry: with
the state-parameters facet absent and the poll not suppressed, the refresh
overwrites a cached `some true` with `none` (Python `None`), so the presented
value changes under facet absence.  Status: with both facets absent and the
vehicle offline, the refresh replaces the initial `"Unknown"` with
`"Sleeping"` rather than preserving it. -/
theorem cached_persistence_counterexample :
    ctrlOnlineEmpty.state_params bSample.id = none ∧
    sentryOn.manual_update_time ≤ ctrlOnlineEmpty.last_update_time bSample.id ∧
    SentrySwitch.get_value sentryOn = some true ∧
    SentrySwitch.get_value
      (SentrySwitch.async_update ctrlOnlineEmpty bSample sentryOn) = none ∧
    ctrlOffline.charging_params bSample.id = none ∧
    ctrlOffline.drive_params bSample.id = none ∧
    StatusSensor.async_update ctrlOffline bSample = Except.ok "Sleeping" ∧
    ("Sleeping" : String) ≠ "Unknown" := by
  refine ⟨rfl, by decide, rfl, rfl, rfl, rfl, rfl, by decide⟩

/-- C3 amended: cached values persist under facet absence for the battery and
range sensors, and for the sentry switch whenever the poll-time guard
suppresses the update; the claim does not extend to the status sensor (whose
refresh always recomputes the status) nor to the sentry switch under an
unsuppressed poll (an absent facet then overwrites the flag with `None`). -/
theorem cached_persistence_amended (c : Controller) (b : VehicleBase)
    (bs : BatteryState) (rs : RangeState) (ss : SentryState) :
    (c.charging_params b.id = none →
      Battery.get_value (Battery.async_update c b bs) = Battery.get_value bs) ∧
    (c.charging_params b.id = none → c.gui_params b.id = none →
      Range.get_value (Range.async_update c b rs) = Range.get_value rs) ∧
    (c.last_update_time b.id < ss.manual_update_time →
      SentrySwitch.get_value (SentrySwitch.async_update c b ss) =
        SentrySwitch.get_value ss) := by
  refine ⟨?_, ?_, ?_⟩
  · intro h
    simp [Battery.async_update, h]
  · intro h1 h2
    simp [Range.async_update, h1, h2]
  · intro h
    simp [SentrySwitch.async_update, SentrySwitch.get_value, not_le.mpr h]

/-- Witness for the amended C3 at concrete inputs: absent facets leave the
battery and range presented values unchanged, and a stale poll leaves the
sentry value unchanged. -/
theorem cached_persistence_amended_witness :
    Battery.get_value (Battery.async_update ctrlOnlineEmpty bSample batteryDiff) =
      Battery.get_value batteryDiff ∧
    Range.get_value (Range.async_update ctrlOnlineEmpty bSample rangeRated220) =
      Range.get_value rangeRated220 ∧
    SentrySwitch.get_value
      (SentrySwitch.async_update ctrlOnlineEmpty bSample sentryManual5) =
      SentrySwitch.get_value sentryManual5 := by
  obtain ⟨h1, h2, h3⟩ :=
    cached_persistence_amended ctrlOnlineEmpty bSample batteryDiff rangeRated220
      sentryManual5
  exact ⟨h1 rfl, h2 rfl rfl, h3 (by decide)⟩

/-- C4: the sentry refresh overwrites the cached flag from the
state-parameters facet exactly when the controller's last poll time is not
earlier than `manual_update_time` (a stale poll leaves the whole state
untouched); consequently a successful `enable_sentry` followed by a refresh
whose poll timestamp predates the enable leaves the cached enabled state
intact. -/
theorem sentry_poll_guard (c : Controller) (b : VehicleBase) (s : SentryState) :
    (c.last_update_time b.id < s.manual_update_time →
      SentrySwitch.async_update c b s = s) ∧
    (s.manual_update_time ≤ c.last_update_time b.id →
      SentrySwitch.async_update c b s =
        { s with sentry_state := sentryFacetValue (c.state_params b.id) }) ∧
    (∀ resp now, pyTruthy s.sentry_state = false → respSuccess resp = true →
      c.last_update_time b.id < now →
      SentrySwitch.get_value
        (SentrySwitch.async_update c b
          (SentrySwitch.enable_sentry resp now s).1) = some true) := by
  refine ⟨?_, ?_, ?_⟩
  · intro h
    simp [SentrySwitch.async_update, not_le.mpr h]
  · intro h
    simp [SentrySwitch.async_update, h]
  · intro resp now hfalsy hsucc hlt
    simp [SentrySwitch.enable_sentry, hfalsy, hsucc, SentrySwitch.async_update,
      SentrySwitch.get_value, not_le.mpr hlt]

/-- Witness for C4 at concrete inputs: a poll at time 0 against a manual
update at time 5 changes nothing, and enabling at time 5 from a disabled
state followed by a refresh whose poll time 0 predates the enable still
presents `some true`. -/
theorem sentry_poll_guard_witness :
    SentrySwitch.async_update ctrlOnlineEmpty bSample sentryManual5 =
      sentryManual5 ∧
    SentrySwitch.get_value
      (SentrySwitch.async_update ctrlOnlineEmpty bSample
        (SentrySwitch.enable_sentry (some { result := true }) 5 sentryOff).1) =
      some true := by
  refine ⟨(sentry_poll_guard ctrlOnlineEmpty bSample sentryManual5).1 (by decide), ?_⟩
  exact (sentry_poll_guard ctrlOnlineEmpty bSample sentryOff).2.2
    (some { result := true }) 5 rfl rfl (by decide)

/-- C5: `enable_sentry` is a no-op (zero commands, state untouched) when the
believed state is truthy; otherwise it issues exactly one command, records
`manual_update_time = now` whatever the outcome, sets the flag to enabled
exactly when the response is present and reports success, and leaves the flag
unchanged otherwise; after a successful enable a second call issues no
further command, so two calls in a row issue exactly one command in total;
`disable_sentry` is symmetric. -/
theorem sentry_command_semantics (s : SentryState)
    (resp : Option CommandResponse) (now : Int) :
    (pyTruthy s.sentry_state = true →
      SentrySwitch.enable_sentry resp now s = (s, 0)) ∧
    (pyTruthy s.sentry_state = false →
      (SentrySwitch.enable_sentry resp now s).2 = 1 ∧
      (SentrySwitch.enable_sentry resp now s).1.manual_update_time = now ∧
      (respSuccess resp = true →
        (SentrySwitch.enable_sentry resp now s).1.sentry_state = some true) ∧
      (respSuccess resp = false →
        (SentrySwitch.enable_sentry resp now s).1.sentry_state = s.sentry_state)) ∧
    (∀ resp2 now2, pyTruthy s.sentry_state = false → respSuccess resp = true →
      (SentrySwitch.enable_sentry resp now s).2 +
        (SentrySwitch.enable_sentry resp2 now2
          (SentrySwitch.enable_sentry resp now s).1).2 = 1) ∧
    (pyTruthy s.sentry_state = false →
      SentrySwitch.disable_sentry resp now s = (s, 0)) ∧
    (pyTruthy s.sentry_state = true →
      (SentrySwitch.disable_sentry resp now s).2 = 1 ∧
      (SentrySwitch.disable_sentry resp now s).1.manual_update_time = now ∧
      (respSuccess resp = true →
        (SentrySwitch.disable_sentry resp now s).1.sentry_state = some false) ∧
      (respSuccess resp = false →
        (SentrySwitch.disable_sentry resp now s).1.sentry_state = s.sentry_state)) := by
  refine ⟨?_, ?_, ?_, ?_, ?_⟩
  · intro h
    simp [SentrySwitch.enable_sentry, h]
  · intro h
    refine ⟨by simp [SentrySwitch.enable_sentry, h], by simp [SentrySwitch.enable_sentry, h], ?_, ?_⟩
      <;> intro hr <;> simp [SentrySwitch.enable_sentry, h, hr]
  · intro resp2 now2 h hr
    have h1 : SentrySwitch.enable_sentry resp now s =
        ({ manual_update_time := now, sentry_state := some true }, 1) := by
      simp [SentrySwitch.enable_sentry, h, hr]
    rw [h1]
    simp [SentrySwitch.enable_sentry, pyTruthy]
  · intro h
    simp [SentrySwitch.disable_sentry, h]
  · intro h
    refine ⟨by simp [SentrySwitch.disable_sentry, h], by simp [SentrySwitch.disable_sentry, h], ?_, ?_⟩
      <;> intro hr <;> simp [SentrySwitch.disable_sentry, h, hr]

/-- Witness for C5 at concrete inputs: enabling twice from disabled with a
successful response issues one command in total, and a failed enable keeps
the flag disabled while still recording the manual-update time. -/
theorem sentry_command_semantics_witness :
    (SentrySwitch.enable_sentry (some { result := true }) 7 sentryOff).2 +
      (SentrySwitch.enable_sentry (some { result := true }) 9
        (SentrySwitch.enable_sentry (some { result := true }) 7 sentryOff).1).2 = 1 ∧
    (SentrySwitch.enable_sentry none 7 sentryOff).1.sentry_state = some false ∧
    (SentrySwitch.enable_sentry none 7 sentryOff).1.manual_update_time = 7 := by
  obtain ⟨-, h2, h3, -, -⟩ :=
    sentry_command_semantics sentryOff (some { result := true }) 7
  obtain ⟨-, h2f, -, -, -⟩ := sentry_command_semantics sentryOff none 7
  exact ⟨h3 (some { result := true }) 9 rfl rfl, (h2f rfl).2.2.2 rfl, (h2f rfl).2.1⟩

/-- C6: `assumed_state` is a pure query returning true exactly when the
vehicle is believed offline and the elapsed time the code measures (last
update time minus last wake time, both at the device's id) exceeds the
controller's update interval; it is false when either conjunct fails. -/
theorem assumed_state_conjunction (c : Controller) (b : VehicleBase) :
    VehicleDevice.assumed_state c b = true ↔
      c.car_online b.id = false ∧
        c.last_update_time b.id - c.last_wake_up_time b.id >
          c.update_interval := by
  simp [VehicleDevice.assumed_state]

/-- Witness for C6 at a concrete input: offline with elapsed 10 against
interval 5 gives true. -/
theorem assumed_state_conjunction_witness :
    VehicleDevice.assumed_state
      { ctrlOffline with
        last_update_time := fun _ => 10
        update_interval := 5 } bSample = true := by
  exact (assumed_state_conjunction
    { ctrlOffline with last_update_time := fun _ => 10, update_interval := 5 }
    bSample).mpr ⟨rfl, by decide⟩

/-- C7: the range sensor's presented value is the stored rated figure when
the rated flag is set and the stored ideal figure otherwise; in particular
rated mode with figures 220/200 presents 220 and ideal mode with the same
figures presents 200. -/
theorem range_rated_switch (s : RangeState) :
    (s.rated = true → Range.get_value s = s.battery_range) ∧
    (s.rated = false → Range.get_value s = s.ideal_battery_range) ∧
    Range.get_value rangeRated220 = 220 ∧
    Range.get_value rangeIdeal220 = 200 := by
  refine ⟨?_, ?_, rfl, rfl⟩ <;> intro h <;> simp [Range.get_value, h]

/-- Witness for C7 at concrete inputs, applying the general branches at the
two sample states. -/
theorem range_rated_switch_witness :
    Range.get_value rangeRated220 = 220 ∧ Range.get_value rangeIdeal220 = 200 := by
  exact ⟨(range_rated_switch rangeRated220).1 rfl,
    (range_rated_switch rangeIdeal220).2.1 rfl⟩

/-- C8: the battery sensor's presented value is always the stored
`battery_level`, never the stored `usable_battery_level`: in any state the
accessor returns `battery_level`, and whenever the two stored levels differ
the presented value differs from the usable accessor's value. -/
theorem battery_value_is_battery_level (s : BatteryState) :
    Battery.get_value s = s.battery_level ∧
    (s.battery_level ≠ s.usable_battery_level →
      Battery.get_value s ≠ Battery.get_usable_value s) := by
  exact ⟨rfl, fun h => h⟩

/-- Witness for C8 at a concrete state whose two levels differ (80 vs 78):
the presented value is 80, not 78. -/
theorem battery_value_is_battery_level_witness :
    Battery.get_value batteryDiff = 80 ∧
    Battery.get_value batteryDiff ≠ Battery.get_usable_value batteryDiff := by
  exact ⟨(battery_value_is_battery_level batteryDiff).1,
    (battery_value_is_battery_level batteryDiff).2 (by decide)⟩

/-- C9: the status refresh consults the online map at the key `vin`, not at
`id`: two controllers that agree everywhere except in the online flag at the
device's `id` (with `vin` distinct from `id`) yield identical statuses, while
flipping the flag at `vin` (two concrete controllers agreeing at every other
key and in every facet) switches the Sleeping branch on and off. -/
theorem status_online_keyed_by_vin (c : Controller) (b : VehicleBase)
    (f g : String → Bool) :
    (b.vin ≠ b.id → (∀ k, k ≠ b.id → f k = g k) →
      StatusSensor.async_update { c with car_online := f } b =
        StatusSensor.async_update { c with car_online := g } b) ∧
    (∀ k, k ≠ "V" → ctrlParkedOnVin.car_online k = ctrlParkedAllOn.car_online k) ∧
    ctrlParkedOnVin.charging_params = ctrlParkedAllOn.charging_params ∧
    ctrlParkedOnVin.drive_params = ctrlParkedAllOn.drive_params ∧
    StatusSensor.async_update ctrlParkedOnVin bSample = Except.ok "Sleeping" ∧
    StatusSensor.async_update ctrlParkedAllOn bSample = Except.ok "Parked" := by
  refine ⟨?_, ?_, rfl, rfl, rfl, rfl⟩
  · intro hvi hagree
    have h := hagree b.vin hvi
    simp [StatusSensor.async_update, h]
  · intro k hk
    simp [ctrlParkedOnVin, ctrlParkedAllOn, ctrlOnlineEmpty, hk]

/-- Witness for C9 at concrete inputs: flipping the online flag at the key
`"I"` (the sample id) leaves the computed status unchanged, since the lookup
key is the vin `"V"`. -/
theorem status_online_keyed_by_vin_witness :
    StatusSensor.async_update
      { ctrlParkedAllOn with car_online := fun k => !(k == "I") } bSample =
    StatusSensor.async_update
      { ctrlParkedAllOn with car_online := fun _ => true } bSample := by
  exact (status_online_keyed_by_vin ctrlParkedAllOn bSample
      (fun k => !(k == "I")) (fun _ => true)).1
    (by decide) (fun k hk => by simp [bSample] at hk; simp [hk])

/-- C10: a no-op `enable_sentry` (believed state already truthy) and a no-op
`disable_sentry` (believed state falsy) return the state completely
unchanged — in particular `manual_update_time` is untouched — and issue zero
commands, so a no-op call never extends the poll-suppression window. -/
theorem sentry_noop_preserves_guard (s : SentryState)
    (resp : Option CommandResponse) (now : Int) :
    (pyTruthy s.sentry_state = true →
      SentrySwitch.enable_sentry resp now s = (s, 0) ∧
      (SentrySwitch.enable_sentry resp now s).1.manual_update_time =
        s.manual_update_time) ∧
    (pyTruthy s.sentry_state = false →
      SentrySwitch.disable_sentry resp now s = (s, 0) ∧
      (SentrySwitch.disable_sentry resp now s).1.manual_update_time =
        s.manual_update_time) := by
  constructor <;> intro h <;>
    simp [SentrySwitch.enable_sentry, SentrySwitch.disable_sentry, h]

/-- Witness for C10 at concrete inputs: enabling an already-enabled switch
and disabling an already-disabled switch both leave the state (including the
manual-update time) unchanged and issue no command. -/
theorem sentry_noop_preserves_guard_witness :
    SentrySwitch.enable_sentry (some { result := true }) 9 sentryOn =
      (sentryOn, 0) ∧
    SentrySwitch.disable_sentry (some { result := true }) 9 sentryOff =
      (sentryOff, 0) := by
  exact ⟨((sentry_noop_preserves_guard sentryOn (some { result := true }) 9).1 rfl).1,
    ((sentry_noop_preserves_guard sentryOff (some { result := true }) 9).2 rfl).1⟩

end Teslajsonpy
